import Mathlib

/-!
FlexRIC energy-saving xApp: the deep-sleep decision engine.

Shallow embedding of `energy-stack/deep-sleep/xapp/xapp_energy_save.c`.

* The global `energy_state` is passed explicitly: every handler takes the
  state before the call and returns the state after it.
* `time_now_us()` is an external clock. `mac_stats_handle` reads it once
  (line 55) and `check_energy_save_conditions` reads it again (line 103);
  both readings are inputs of the embedding.
* `e2_ctrl_req_out` is an external call. Its reported outcome
  (`has_value`) is an input, and every call of `toggle_transmit_chain`
  is recorded in the list of control calls the handler returns.
* `uint32_t` and `uint64_t` values are natural numbers; increments and the
  subtraction of time stamps are reduced modulo `2^32` and `2^64`.
* `printf` output is not modelled.
-/

namespace EnergySave

/-! ## Data model -/

/-- The `energy_save_state_t` record (lines 21-28). -/
structure energy_save_state_t where
  tx_active : Bool
  last_pdsch_time : Nat
  no_pdsch_start_time : Nat
  harq_failure_count : Nat
  deep_sleep_active : Bool
  energy_save_cycles : Nat
  deriving DecidableEq, Repr

/-- The static initialiser of `energy_state` (lines 31-38). -/
def energy_state : energy_save_state_t :=
  { tx_active := true
    last_pdsch_time := 0
    no_pdsch_start_time := 0
    harq_failure_count := 0
    deep_sleep_active := false
    energy_save_cycles := 0 }

/-- The fields of `mac_ue_stats_t` the handler reads. The type is declared in
the external MAC service-model header; the three fields are unsigned. -/
structure mac_ue_stats_t where
  rnti : Nat
  dl_aggr_tbs : Nat
  dl_harq_round : Nat
  deriving DecidableEq, Repr

/-- The indication message: `ue_stats` holds the `len_ue_stats` entries. -/
structure mac_ind_msg_t where
  ue_stats : List mac_ue_stats_t
  deriving DecidableEq, Repr

/-- The node descriptor, reduced to `node->id.nb_id.nb_id`. -/
structure e2_node_t where
  nb_id : Nat
  deriving DecidableEq, Repr

/-- One call of `e2_ctrl_req_out` made by `toggle_transmit_chain`: the node
addressed, the `enable` argument of the toggle, the RAN function id, the
fields written into the control message, and the outcome reported. -/
structure ctrl_call where
  node : e2_node_t
  enable : Bool
  ran_func_id : Nat
  rnti : Nat
  num_drb : Nat
  has_value : Bool
  deriving DecidableEq, Repr

/-! ## Constants (lines 41-44) -/

def PDSCH_TIMEOUT_MS : Nat := 500

def PDSCH_TIMEOUT_US : Nat := PDSCH_TIMEOUT_MS * 1000

def MAX_HARQ_FAILURES : Nat := 0

/-- Number of values of a `uint32_t`. -/
def UINT32_RANGE : Nat := 2 ^ 32

/-- Number of values of a `uint64_t`. -/
def UINT64_RANGE : Nat := 2 ^ 64

/-- The `++` on a `uint32_t`. -/
def incr32 (x : Nat) : Nat := (x + 1) % UINT32_RANGE

/-- The `-` on two `uint64_t` values. -/
def sub64 (a b : Nat) : Nat := (a + UINT64_RANGE - b) % UINT64_RANGE

/-! ## The handlers -/

/-- The local variables of the loop of `mac_stats_handle`, with the global
state the loop updates. -/
structure loop_vars where
  pdsch_scheduled : Bool
  harq_failure : Bool
  st : energy_save_state_t
  deriving DecidableEq, Repr

/-- One iteration of the loop over `ue_stats` (lines 63-78). -/
def ue_loop_body (v : loop_vars) (ue_stats : mac_ue_stats_t) : loop_vars :=
  let v1 : loop_vars :=
    if ue_stats.dl_aggr_tbs > 0 then { v with pdsch_scheduled := true } else v
  if ue_stats.dl_harq_round > 0 then
    { v1 with
      harq_failure := true
      st := { v1.st with harq_failure_count := incr32 v1.st.harq_failure_count } }
  else v1

/-- The loop `for (i = 0; i < len_ue_stats; ++i)` (lines 56-79), started with
both flags false. -/
def ue_loop (st : energy_save_state_t) (ind_msg : mac_ind_msg_t) : loop_vars :=
  ind_msg.ue_stats.foldl ue_loop_body
    { pdsch_scheduled := false, harq_failure := false, st := st }

/-- The block "Update PDSCH tracking" (lines 81-95). -/
def update_pdsch_tracking (st : energy_save_state_t) (pdsch_scheduled : Bool)
    (current_time : Nat) : energy_save_state_t :=
  if pdsch_scheduled then
    let st1 := { st with last_pdsch_time := current_time }
    if st1.no_pdsch_start_time = 0 then
      { st1 with no_pdsch_start_time := 0 }
    else st1
  else
    if st.no_pdsch_start_time = 0 then
      { st with no_pdsch_start_time := current_time }
    else st

/-- The function `toggle_transmit_chain` (lines 159-214): one control request
to RAN function 26 for RNTI `0xFFFF` with no bearer; `has_value` is the
outcome `e2_ctrl_req_out` reports. -/
def toggle_transmit_chain (node : e2_node_t) (enable : Bool) (has_value : Bool) :
    List ctrl_call :=
  [{ node := node, enable := enable, ran_func_id := 26, rnti := 0xFFFF,
     num_drb := 0, has_value := has_value }]

/-- The function `check_energy_save_conditions` (lines 101-157);
`current_time` is the clock reading of line 103. -/
def check_energy_save_conditions (st : energy_save_state_t) (node : e2_node_t)
    (current_time : Nat) (has_value : Bool) :
    energy_save_state_t × List ctrl_call :=
  let no_pdsch_duration : Nat :=
    if st.no_pdsch_start_time > 0 then sub64 current_time st.no_pdsch_start_time
    else 0
  if no_pdsch_duration ≥ PDSCH_TIMEOUT_US ∧
      st.harq_failure_count ≤ MAX_HARQ_FAILURES ∧
      st.tx_active = true ∧
      st.deep_sleep_active = false then
    ({ st with
        tx_active := false
        deep_sleep_active := true
        energy_save_cycles := incr32 st.energy_save_cycles },
      toggle_transmit_chain node false has_value)
  else if st.no_pdsch_start_time = 0 ∧ st.deep_sleep_active = true then
    ({ st with
        tx_active := true
        deep_sleep_active := false
        harq_failure_count := 0 },
      toggle_transmit_chain node true has_value)
  else (st, [])

/-- The function `mac_stats_handle` (lines 50-99). `now_handle` is the
clock reading of line 55, `now_check` the one of line 103. -/
def mac_stats_handle (st : energy_save_state_t) (node : e2_node_t)
    (ind_msg : mac_ind_msg_t) (now_handle now_check : Nat) (has_value : Bool) :
    energy_save_state_t × List ctrl_call :=
  let v := ue_loop st ind_msg
  let st1 := update_pdsch_tracking v.st v.pdsch_scheduled now_handle
  check_energy_save_conditions st1 node now_check has_value

/-! ## Runs of the handler -/

/-- One delivery of an indication: the arguments of `mac_stats_handle` and
what the environment answers during the call. -/
structure call where
  node : e2_node_t
  ind_msg : mac_ind_msg_t
  now_handle : Nat
  now_check : Nat
  has_value : Bool
  deriving DecidableEq, Repr

/-- The handler applied to one delivery. -/
def handle (st : energy_save_state_t) (c : call) :
    energy_save_state_t × List ctrl_call :=
  mac_stats_handle st c.node c.ind_msg c.now_handle c.now_check c.has_value

/-- The state after a sequence of deliveries, each handled to completion
before the next. -/
def run_state (st : energy_save_state_t) : List call → energy_save_state_t
  | [] => st
  | c :: cs => run_state (handle st c).1 cs

/-- The control calls of each delivery of a sequence, in order. -/
def run_calls (st : energy_save_state_t) : List call → List (List ctrl_call)
  | [] => []
  | c :: cs => (handle st c).2 :: run_calls (handle st c).1 cs

/-- A call of `toggle_transmit_chain(node, false)` is among the control
calls: the ACTIVE to DEEP_SLEEP branch was taken. -/
def took_entry (cs : List ctrl_call) : Bool := cs.any (fun c => !c.enable)

/-- A call of `toggle_transmit_chain(node, true)` is among the control
calls: the DEEP_SLEEP to ACTIVE branch was taken. -/
def took_exit (cs : List ctrl_call) : Bool := cs.any (fun c => c.enable)

/-- The number of deliveries of a run that took the ACTIVE to DEEP_SLEEP
branch. -/
def entry_count (css : List (List ctrl_call)) : Nat := css.countP took_entry

/-- Some entry of the indication has `dl_aggr_tbs > 0`. -/
def has_traffic (ind_msg : mac_ind_msg_t) : Bool :=
  ind_msg.ue_stats.any (fun ue => decide (ue.dl_aggr_tbs > 0))

/-- Some entry of the indication has `dl_harq_round > 0`. -/
def has_harq (ind_msg : mac_ind_msg_t) : Bool :=
  ind_msg.ue_stats.any (fun ue => decide (ue.dl_harq_round > 0))

/-- The number of entries of the indication with `dl_harq_round > 0`. -/
def harq_entries (ind_msg : mac_ind_msg_t) : Nat :=
  ind_msg.ue_stats.countP (fun ue => decide (ue.dl_harq_round > 0))

/-! ## Concrete deliveries used below -/

/-- Node 1. -/
def node1 : e2_node_t := { nb_id := 1 }

/-- An indication with one user that has nothing scheduled and no
retransmission. -/
def idle_ind : mac_ind_msg_t :=
  { ue_stats := [{ rnti := 7, dl_aggr_tbs := 0, dl_harq_round := 0 }] }

/-- An indication with one user that has 120 bytes scheduled and no
retransmission. -/
def traffic_ind : mac_ind_msg_t :=
  { ue_stats := [{ rnti := 7, dl_aggr_tbs := 120, dl_harq_round := 0 }] }

/-- An indication with one user that has nothing scheduled and is in
retransmission round 1. -/
def harq_ind : mac_ind_msg_t :=
  { ue_stats := [{ rnti := 7, dl_aggr_tbs := 0, dl_harq_round := 1 }] }

/-- A delivery from node 1 whose two clock readings are both `t` and whose
control request, if any, is sent successfully. -/
def at_time (ind_msg : mac_ind_msg_t) (t : Nat) : call :=
  { node := node1, ind_msg := ind_msg, now_handle := t, now_check := t,
    has_value := true }

/-- The idle part of the scenario of the specification, with the clock
starting at one second: idle indications every 100 ms from 0 to 500 ms. -/
def scenario_idle : List call :=
  [at_time idle_ind 1000000, at_time idle_ind 1100000, at_time idle_ind 1200000,
   at_time idle_ind 1300000, at_time idle_ind 1400000, at_time idle_ind 1500000]

/-- The local `no_pdsch_duration` of `check_energy_save_conditions`
(lines 106-109). -/
def no_pdsch_duration (st : energy_save_state_t) (current_time : Nat) : Nat :=
  if st.no_pdsch_start_time > 0 then sub64 current_time st.no_pdsch_start_time
  else 0

/-- The condition of the branch "entering deep sleep" (lines 123-126). -/
def entry_cond (st : energy_save_state_t) (current_time : Nat) : Prop :=
  no_pdsch_duration st current_time ≥ PDSCH_TIMEOUT_US ∧
  st.harq_failure_count ≤ MAX_HARQ_FAILURES ∧
  st.tx_active = true ∧
  st.deep_sleep_active = false

/-- The condition of the branch "exiting deep sleep" (lines 143-144), which
is tried when the first condition fails. -/
def exit_cond (st : energy_save_state_t) : Prop :=
  st.no_pdsch_start_time = 0 ∧ st.deep_sleep_active = true

instance (st : energy_save_state_t) (t : Nat) : Decidable (entry_cond st t) := by
  unfold entry_cond; infer_instance

instance (st : energy_save_state_t) : Decidable (exit_cond st) := by
  unfold exit_cond; infer_instance

/-- The state `check_energy_save_conditions` is called on (line 98): the state
after the loop and the tracking block. -/
def tracked (st : energy_save_state_t) (ind_msg : mac_ind_msg_t)
    (now_handle : Nat) : energy_save_state_t :=
  update_pdsch_tracking (ue_loop st ind_msg).st (ue_loop st ind_msg).pdsch_scheduled
    now_handle

/-- What holds of every state reachable from the initial one: the two mode
flags are complementary, the idle timer is set in deep sleep, and deep
sleep has been entered once in deep sleep and never before. -/
def reach_inv (st : energy_save_state_t) : Prop :=
  st.tx_active = !st.deep_sleep_active ∧
  (st.deep_sleep_active = true → st.no_pdsch_start_time ≠ 0) ∧
  st.energy_save_cycles = if st.deep_sleep_active then 1 else 0

/-- The clock readings of a sequence of deliveries, in the order in which
they are taken. -/
def readings : List call → List Nat
  | [] => []
  | c :: cs => c.now_handle :: c.now_check :: readings cs

/-- The ACTIVE state in which the idle timer was started at `t0` and nothing
else has happened. -/
def idle_since (t0 : Nat) : energy_save_state_t :=
  { energy_state with no_pdsch_start_time := t0 }

/-- The DEEP_SLEEP state entered from `idle_since t0`. -/
def asleep_since (t0 : Nat) : energy_save_state_t :=
  { tx_active := false, last_pdsch_time := 0, no_pdsch_start_time := t0,
    harq_failure_count := 0, deep_sleep_active := true, energy_save_cycles := 1 }

/-- The check of a delivery reads the clock at least `PDSCH_TIMEOUT_US`
after `t0`. -/
def past_threshold (t0 : Nat) (c : call) : Bool :=
  decide (PDSCH_TIMEOUT_US ≤ c.now_check - t0)

/-- The number of entries with `dl_harq_round > 0` in a sequence of
deliveries. -/
def total_harq_entries (cs : List call) : Nat :=
  (cs.map (fun c => harq_entries c.ind_msg)).sum

/-- What makes a delivery fit a run of idle indications whose timer was
started at `t0`: no traffic, no retransmission, and a check reading in
`[t0, 2^64)`. -/
def idle_after (t0 : Nat) (c : call) : Prop :=
  (∀ ue ∈ c.ind_msg.ue_stats, ue.dl_aggr_tbs = 0 ∧ ue.dl_harq_round = 0) ∧
  t0 ≤ c.now_check ∧ c.now_check < UINT64_RANGE

/-- An indication with `n` users that have nothing scheduled and are all in
retransmission round 1. -/
def harq_burst (n : Nat) : mac_ind_msg_t :=
  { ue_stats := List.replicate n { rnti := 7, dl_aggr_tbs := 0, dl_harq_round := 1 } }

/-! ## Node events -/

/-- One call of `e2_subs_req_out` made by `e2_node_conn_handle`: the node
addressed, the RAN function id, the fields written into the subscription
request, and the outcome reported. -/
structure subs_call where
  node : e2_node_t
  ran_func_id : Nat
  len_et : Nat
  act_def_dummy : Nat
  len_action_id : Nat
  has_value : Bool
  deriving DecidableEq, Repr

/-- The function `e2_node_conn_handle` (lines 222-254): one subscription
request to RAN function 26; `energy_state` is not touched. `has_value` is
the outcome `e2_subs_req_out` reports. -/
def e2_node_conn_handle (st : energy_save_state_t) (node : e2_node_t)
    (has_value : Bool) : energy_save_state_t × List subs_call :=
  (st, [{ node := node, ran_func_id := 26, len_et := 1, act_def_dummy := 42,
          len_action_id := 1, has_value := has_value }])

/-- The function `e2_node_disconn_handle` (lines 256-260): it only prints;
`energy_state` is not touched. -/
def e2_node_disconn_handle (st : energy_save_state_t) (_node : e2_node_t) :
    energy_save_state_t := st

/-- Node 2. -/
def node2 : e2_node_t := { nb_id := 2 }

/-- A delivery from the given node whose two clock readings are both `t` and
whose control request, if any, is sent successfully. -/
def from_node (node : e2_node_t) (ind_msg : mac_ind_msg_t) (t : Nat) : call :=
  { node := node, ind_msg := ind_msg, now_handle := t, now_check := t,
    has_value := true }

/-- The control call readdressed to another node. -/
def readdress (node : e2_node_t) (x : ctrl_call) : ctrl_call :=
  { x with node := node }

/-- The control call with another reported outcome. -/
def with_outcome (has_value : Bool) (x : ctrl_call) : ctrl_call :=
  { x with has_value := has_value }

/-- The same delivery, made by another node. -/
def deliver_from (node : e2_node_t) (c : call) : call :=
  { c with node := node }

/-! ## The loop over the entries -/

/-- The counter after `n` increments. -/
def incr32_iter (n : Nat) (x : Nat) : Nat := Nat.iterate incr32 n x

theorem incr32_iter_zero (x : Nat) : incr32_iter 0 x = x := rfl

theorem incr32_iter_succ (n x : Nat) :
    incr32_iter (n + 1) x = incr32_iter n (incr32 x) := rfl

theorem incr32_iter_eq (n x : Nat) (hx : x < UINT32_RANGE) :
    incr32_iter n x = (x + n) % UINT32_RANGE := by
  induction n generalizing x with
  | zero => simp [incr32_iter_zero, Nat.mod_eq_of_lt hx]
  | succ n ih =>
    have hlt : incr32 x < UINT32_RANGE := Nat.mod_lt _ (by decide)
    rw [incr32_iter_succ, ih _ hlt]
    unfold incr32
    rw [Nat.add_mod, Nat.mod_mod, ← Nat.add_mod]
    congr 1
    omega

theorem incr32_iter_lt (n x : Nat) (hx : x < UINT32_RANGE) :
    incr32_iter n x < UINT32_RANGE := by
  rw [incr32_iter_eq n x hx]
  exact Nat.mod_lt _ (by decide)

/-- The loop from any values of its variables: the flags are or-ed with the
per-entry tests and the counter is incremented once per failing entry. -/
theorem foldl_ue_loop_body (ues : List mac_ue_stats_t) (v : loop_vars) :
    ues.foldl ue_loop_body v =
      { pdsch_scheduled :=
          v.pdsch_scheduled || ues.any (fun ue => decide (ue.dl_aggr_tbs > 0))
        harq_failure :=
          v.harq_failure || ues.any (fun ue => decide (ue.dl_harq_round > 0))
        st := { v.st with
          harq_failure_count :=
            incr32_iter (ues.countP (fun ue => decide (ue.dl_harq_round > 0)))
              v.st.harq_failure_count } } := by
  induction ues generalizing v with
  | nil => simp [incr32_iter_zero]
  | cons ue ues ih =>
    rw [List.foldl_cons, ih]
    by_cases h1 : ue.dl_aggr_tbs > 0 <;> by_cases h2 : ue.dl_harq_round > 0 <;>
      simp [ue_loop_body, h1, h2, List.countP_cons, incr32_iter_succ]

theorem ue_loop_eq (st : energy_save_state_t) (ind_msg : mac_ind_msg_t) :
    ue_loop st ind_msg =
      { pdsch_scheduled := has_traffic ind_msg
        harq_failure := has_harq ind_msg
        st := { st with
          harq_failure_count :=
            incr32_iter (harq_entries ind_msg) st.harq_failure_count } } := by
  unfold ue_loop has_traffic has_harq harq_entries
  rw [foldl_ue_loop_body]
  simp

/-- The handler is the check applied to the tracked state. -/
theorem mac_stats_handle_eq (st : energy_save_state_t) (node : e2_node_t)
    (ind_msg : mac_ind_msg_t) (now_handle now_check : Nat) (has_value : Bool) :
    mac_stats_handle st node ind_msg now_handle now_check has_value =
      check_energy_save_conditions (tracked st ind_msg now_handle)
        node now_check has_value := rfl

/-- The tracked state, field by field. -/
theorem tracked_eq (st : energy_save_state_t) (ind_msg : mac_ind_msg_t) (t : Nat) :
    tracked st ind_msg t =
      { tx_active := st.tx_active
        last_pdsch_time := if has_traffic ind_msg then t else st.last_pdsch_time
        no_pdsch_start_time :=
          if has_traffic ind_msg then st.no_pdsch_start_time
          else if st.no_pdsch_start_time = 0 then t else st.no_pdsch_start_time
        harq_failure_count :=
          incr32_iter (harq_entries ind_msg) st.harq_failure_count
        deep_sleep_active := st.deep_sleep_active
        energy_save_cycles := st.energy_save_cycles } := by
  unfold tracked update_pdsch_tracking
  rw [ue_loop_eq]
  by_cases h1 : has_traffic ind_msg = true <;>
    by_cases h2 : st.no_pdsch_start_time = 0 <;> simp [h1, h2]

theorem tracked_tx_active (st : energy_save_state_t) (ind_msg : mac_ind_msg_t)
    (t : Nat) : (tracked st ind_msg t).tx_active = st.tx_active := by
  rw [tracked_eq]

theorem tracked_deep_sleep_active (st : energy_save_state_t)
    (ind_msg : mac_ind_msg_t) (t : Nat) :
    (tracked st ind_msg t).deep_sleep_active = st.deep_sleep_active := by
  rw [tracked_eq]

theorem tracked_energy_save_cycles (st : energy_save_state_t)
    (ind_msg : mac_ind_msg_t) (t : Nat) :
    (tracked st ind_msg t).energy_save_cycles = st.energy_save_cycles := by
  rw [tracked_eq]

theorem tracked_harq_failure_count (st : energy_save_state_t)
    (ind_msg : mac_ind_msg_t) (t : Nat) :
    (tracked st ind_msg t).harq_failure_count =
      incr32_iter (harq_entries ind_msg) st.harq_failure_count := by
  rw [tracked_eq]

theorem tracked_no_pdsch_start_time (st : energy_save_state_t)
    (ind_msg : mac_ind_msg_t) (t : Nat) :
    (tracked st ind_msg t).no_pdsch_start_time =
      if has_traffic ind_msg then st.no_pdsch_start_time
      else if st.no_pdsch_start_time = 0 then t else st.no_pdsch_start_time := by
  rw [tracked_eq]

/-- The tracking block never clears a timer that is set. -/
theorem tracked_start_ne_zero (st : energy_save_state_t) (ind_msg : mac_ind_msg_t)
    (t : Nat) (h : st.no_pdsch_start_time ≠ 0) :
    (tracked st ind_msg t).no_pdsch_start_time = st.no_pdsch_start_time := by
  rw [tracked_no_pdsch_start_time]
  split_ifs <;> simp_all

/-- The check, with its local duration and its two conditions named. -/
theorem check_eq (st : energy_save_state_t) (node : e2_node_t)
    (t : Nat) (b : Bool) :
    check_energy_save_conditions st node t b =
      if entry_cond st t then
        ({ st with
            tx_active := false
            deep_sleep_active := true
            energy_save_cycles := incr32 st.energy_save_cycles },
          toggle_transmit_chain node false b)
      else if exit_cond st then
        ({ st with
            tx_active := true
            deep_sleep_active := false
            harq_failure_count := 0 },
          toggle_transmit_chain node true b)
      else (st, []) := rfl

theorem check_entry (st : energy_save_state_t) (node : e2_node_t)
    (t : Nat) (b : Bool) (h : entry_cond st t) :
    check_energy_save_conditions st node t b =
      ({ st with
          tx_active := false
          deep_sleep_active := true
          energy_save_cycles := incr32 st.energy_save_cycles },
        toggle_transmit_chain node false b) := by
  rw [check_eq, if_pos h]

theorem check_exit (st : energy_save_state_t) (node : e2_node_t)
    (t : Nat) (b : Bool) (h : ¬ entry_cond st t) (hx : exit_cond st) :
    check_energy_save_conditions st node t b =
      ({ st with
          tx_active := true
          deep_sleep_active := false
          harq_failure_count := 0 },
        toggle_transmit_chain node true b) := by
  rw [check_eq, if_neg h, if_pos hx]

theorem check_none (st : energy_save_state_t) (node : e2_node_t)
    (t : Nat) (b : Bool) (h : ¬ entry_cond st t) (hx : ¬ exit_cond st) :
    check_energy_save_conditions st node t b = (st, []) := by
  rw [check_eq, if_neg h, if_neg hx]

theorem took_entry_toggle (node : e2_node_t) (enable b : Bool) :
    took_entry (toggle_transmit_chain node enable b) = !enable := by
  simp [took_entry, toggle_transmit_chain]

theorem took_exit_toggle (node : e2_node_t) (enable b : Bool) :
    took_exit (toggle_transmit_chain node enable b) = enable := by
  simp [took_exit, toggle_transmit_chain]

/-- The entry branch is taken exactly when its condition holds. -/
theorem took_entry_check (st : energy_save_state_t) (node : e2_node_t)
    (t : Nat) (b : Bool) :
    took_entry (check_energy_save_conditions st node t b).2 = true ↔
      entry_cond st t := by
  by_cases h : entry_cond st t
  · simp [check_entry st node t b h, took_entry_toggle, h]
  · by_cases hx : exit_cond st
    · simp [check_exit st node t b h hx, took_entry_toggle, h]
    · simp [check_none st node t b h hx, took_entry, h]

/-- The exit branch is taken exactly when the entry condition fails and
the exit condition holds. -/
theorem took_exit_check (st : energy_save_state_t) (node : e2_node_t)
    (t : Nat) (b : Bool) :
    took_exit (check_energy_save_conditions st node t b).2 = true ↔
      ¬ entry_cond st t ∧ exit_cond st := by
  by_cases h : entry_cond st t
  · simp [check_entry st node t b h, took_exit_toggle, h]
  · by_cases hx : exit_cond st
    · simp [check_exit st node t b h hx, took_exit_toggle, h, hx]
    · simp [check_none st node t b h hx, took_exit, h, hx]

/-- The threshold is positive, so a duration that reaches it belongs to a
timer that is set. -/
theorem start_pos_of_duration (st : energy_save_state_t) (t : Nat)
    (h : no_pdsch_duration st t ≥ PDSCH_TIMEOUT_US) :
    st.no_pdsch_start_time ≠ 0 := by
  intro h0
  simp [no_pdsch_duration, h0, PDSCH_TIMEOUT_US, PDSCH_TIMEOUT_MS] at h

/-- The check leaves the idle timer alone. -/
theorem check_no_pdsch_start_time (st : energy_save_state_t) (node : e2_node_t)
    (t : Nat) (b : Bool) :
    (check_energy_save_conditions st node t b).1.no_pdsch_start_time =
      st.no_pdsch_start_time := by
  rw [check_eq]
  split_ifs <;> rfl

/-- The check preserves the invariant of reachable states. -/
theorem reach_inv_check (st : energy_save_state_t) (node : e2_node_t)
    (t : Nat) (b : Bool) (h : reach_inv st) :
    reach_inv (check_energy_save_conditions st node t b).1 := by
  obtain ⟨h1, h2, h3⟩ := h
  by_cases ha : entry_cond st t
  · rw [check_entry st node t b ha]
    obtain ⟨hdur, _, _, hd⟩ := ha
    simp only [hd] at h3
    refine ⟨rfl, fun _ => start_pos_of_duration st t hdur, ?_⟩
    simp [incr32, UINT32_RANGE, h3]
  · by_cases hb : exit_cond st
    · exact absurd hb.1 (h2 hb.2)
    · rw [check_none st node t b ha hb]
      exact ⟨h1, h2, h3⟩

/-- From a state that satisfies the invariant, the check raises the cycle
counter by one when it takes the entry branch and leaves it otherwise. -/
theorem cycles_check (st : energy_save_state_t) (node : e2_node_t)
    (t : Nat) (b : Bool) (h : reach_inv st) :
    (check_energy_save_conditions st node t b).1.energy_save_cycles =
      st.energy_save_cycles +
        if took_entry (check_energy_save_conditions st node t b).2 then 1 else 0 := by
  obtain ⟨h1, h2, h3⟩ := h
  by_cases ha : entry_cond st t
  · rw [check_entry st node t b ha]
    obtain ⟨_, _, _, hd⟩ := ha
    simp only [hd] at h3
    simp [incr32, UINT32_RANGE, h3, took_entry_toggle]
  · by_cases hb : exit_cond st
    · exact absurd hb.1 (h2 hb.2)
    · rw [check_none st node t b ha hb]
      simp [took_entry]

theorem reach_inv_tracked (st : energy_save_state_t) (ind_msg : mac_ind_msg_t)
    (t : Nat) (h : reach_inv st) : reach_inv (tracked st ind_msg t) := by
  obtain ⟨h1, h2, h3⟩ := h
  refine ⟨?_, ?_, ?_⟩
  · rw [tracked_tx_active, tracked_deep_sleep_active]; exact h1
  · rw [tracked_deep_sleep_active]
    intro hd
    rw [tracked_start_ne_zero _ _ _ (h2 hd)]
    exact h2 hd
  · rw [tracked_energy_save_cycles, tracked_deep_sleep_active]; exact h3

/-- C6. Telemetry extraction: the loop of mac_stats_handle sets
pdsch_scheduled exactly when some entry has dl_aggr_tbs > 0, sets
harq_failure exactly when some entry has dl_harq_round > 0, raises
harq_failure_count by the number of entries with dl_harq_round > 0 modulo
2^32 and leaves the rest of the state alone; on the empty indication both
flags are false and the state is unchanged. -/
theorem C6_telemetry_extraction (st : energy_save_state_t)
    (ind_msg : mac_ind_msg_t) (hc : st.harq_failure_count < UINT32_RANGE) :
    ((ue_loop st ind_msg).pdsch_scheduled = true ↔
        ∃ ue ∈ ind_msg.ue_stats, ue.dl_aggr_tbs > 0) ∧
    ((ue_loop st ind_msg).harq_failure = true ↔
        ∃ ue ∈ ind_msg.ue_stats, ue.dl_harq_round > 0) ∧
    (ue_loop st ind_msg).st =
      { st with
        harq_failure_count :=
          (st.harq_failure_count +
            (ind_msg.ue_stats.filter (fun ue => decide (ue.dl_harq_round > 0))).length)
            % 2 ^ 32 } ∧
    ue_loop st { ue_stats := [] } =
      { pdsch_scheduled := false, harq_failure := false, st := st } := by
  refine ⟨?_, ?_, ?_, ?_⟩
  · rw [ue_loop_eq]; simp [has_traffic]
  · rw [ue_loop_eq]; simp [has_harq]
  · rw [ue_loop_eq]
    simp only [harq_entries, incr32_iter_eq _ _ hc, List.countP_eq_length_filter]
    rfl
  · rfl

/-- C6 applied to the initial state and an indication with three users, two
of them in a retransmission round and one with bytes scheduled. -/
theorem C6_telemetry_extraction_witness :
    ((ue_loop energy_state { ue_stats := [⟨17, 0, 2⟩, ⟨18, 120, 0⟩, ⟨19, 0, 1⟩] }).pdsch_scheduled
        = true ↔
        ∃ ue ∈ [(⟨17, 0, 2⟩ : mac_ue_stats_t), ⟨18, 120, 0⟩, ⟨19, 0, 1⟩],
          ue.dl_aggr_tbs > 0) ∧
    ((ue_loop energy_state { ue_stats := [⟨17, 0, 2⟩, ⟨18, 120, 0⟩, ⟨19, 0, 1⟩] }).harq_failure
        = true ↔
        ∃ ue ∈ [(⟨17, 0, 2⟩ : mac_ue_stats_t), ⟨18, 120, 0⟩, ⟨19, 0, 1⟩],
          ue.dl_harq_round > 0) ∧
    (ue_loop energy_state { ue_stats := [⟨17, 0, 2⟩, ⟨18, 120, 0⟩, ⟨19, 0, 1⟩] }).st =
      { energy_state with
        harq_failure_count :=
          (energy_state.harq_failure_count +
            (([(⟨17, 0, 2⟩ : mac_ue_stats_t), ⟨18, 120, 0⟩, ⟨19, 0, 1⟩]).filter
              (fun ue => decide (ue.dl_harq_round > 0))).length) % 2 ^ 32 } ∧
    ue_loop energy_state { ue_stats := [] } =
      { pdsch_scheduled := false, harq_failure := false, st := energy_state } :=
  C6_telemetry_extraction energy_state
    { ue_stats := [⟨17, 0, 2⟩, ⟨18, 120, 0⟩, ⟨19, 0, 1⟩] } (by decide)

/-! ## Reachable states -/

theorem reach_inv_init : reach_inv energy_state := by
  simp [reach_inv, energy_state]

theorem reach_inv_handle (st : energy_save_state_t) (c : call)
    (h : reach_inv st) : reach_inv (handle st c).1 := by
  simp only [handle, mac_stats_handle_eq]
  exact reach_inv_check _ _ _ _ (reach_inv_tracked st _ _ h)

theorem reach_inv_run (cs : List call) (st : energy_save_state_t)
    (h : reach_inv st) : reach_inv (run_state st cs) := by
  induction cs generalizing st with
  | nil => exact h
  | cons c cs ih => exact ih _ (reach_inv_handle st c h)

theorem run_state_cons (st : energy_save_state_t) (c : call) (cs : List call) :
    run_state st (c :: cs) = run_state (handle st c).1 cs := rfl

theorem run_calls_cons (st : energy_save_state_t) (c : call) (cs : List call) :
    run_calls st (c :: cs) = (handle st c).2 :: run_calls (handle st c).1 cs := rfl

theorem run_state_append (st : energy_save_state_t) (xs ys : List call) :
    run_state st (xs ++ ys) = run_state (run_state st xs) ys := by
  induction xs generalizing st with
  | nil => rfl
  | cons x xs ih => exact ih _

theorem run_calls_append (st : energy_save_state_t) (xs ys : List call) :
    run_calls st (xs ++ ys) = run_calls st xs ++ run_calls (run_state st xs) ys := by
  induction xs generalizing st with
  | nil => rfl
  | cons x xs ih => simp [run_calls, run_state, ih]

/-- From a state that satisfies the invariant, a call raises the cycle
counter by one when it takes the entry branch and leaves it otherwise. -/
theorem cycles_handle (st : energy_save_state_t) (c : call) (h : reach_inv st) :
    (handle st c).1.energy_save_cycles =
      st.energy_save_cycles + if took_entry (handle st c).2 then 1 else 0 := by
  simp only [handle, mac_stats_handle_eq]
  rw [cycles_check _ _ _ _ (reach_inv_tracked st _ _ h), tracked_energy_save_cycles]

theorem cycles_run (cs : List call) (st : energy_save_state_t) (h : reach_inv st) :
    (run_state st cs).energy_save_cycles =
      st.energy_save_cycles + entry_count (run_calls st cs) := by
  induction cs generalizing st with
  | nil => simp [run_state, run_calls, entry_count]
  | cons c cs ih =>
    simp only [run_state, run_calls]
    rw [ih _ (reach_inv_handle st c h), cycles_handle st c h]
    simp only [entry_count, List.countP_cons]
    split_ifs <;> omega

/-- C5. State invariant: in the initial energy_state and in every state
reached from it by any sequence of mac_stats_handle calls (any nodes,
indications, clock readings and send outcomes), deep_sleep_active is true
exactly when tx_active is false. -/
theorem C5_mode_flags_complementary (cs : List call) :
    (run_state energy_state cs).deep_sleep_active = true ↔
      (run_state energy_state cs).tx_active = false := by
  have h := (reach_inv_run cs energy_state reach_inv_init).1
  rw [h]
  cases (run_state energy_state cs).deep_sleep_active <;> simp

/-- C10. Cycle counter: after any sequence of mac_stats_handle calls from
the initial state, energy_save_cycles equals the number of calls that took
the ACTIVE to DEEP_SLEEP transition; and each further call raises it by
exactly 1 when it takes that transition and leaves it unchanged when it
does not, so no call lowers or resets it. -/
theorem C10_cycle_counter (cs : List call) :
    (run_state energy_state cs).energy_save_cycles =
      entry_count (run_calls energy_state cs) ∧
    ∀ c : call,
      (handle (run_state energy_state cs) c).1.energy_save_cycles =
        (run_state energy_state cs).energy_save_cycles +
          (if took_entry (handle (run_state energy_state cs) c).2 then 1 else 0) := by
  refine ⟨?_, fun c => ?_⟩
  · have h := cycles_run cs energy_state reach_inv_init
    simpa [energy_state] using h
  · exact cycles_handle _ c (reach_inv_run cs energy_state reach_inv_init)

/-! ## The idle timer and the failure counter over one call -/

theorem has_traffic_eq_false (ind_msg : mac_ind_msg_t)
    (h : ∀ ue ∈ ind_msg.ue_stats, ue.dl_aggr_tbs = 0) :
    has_traffic ind_msg = false := by
  unfold has_traffic
  rw [List.any_eq_false]
  intro ue hue
  simp [h ue hue]

theorem harq_entries_eq_zero (ind_msg : mac_ind_msg_t)
    (h : ∀ ue ∈ ind_msg.ue_stats, ue.dl_harq_round = 0) :
    harq_entries ind_msg = 0 := by
  unfold harq_entries
  rw [List.countP_eq_zero]
  intro ue hue
  simp [h ue hue]

theorem handle_no_pdsch_start_time (st : energy_save_state_t) (c : call) :
    (handle st c).1.no_pdsch_start_time =
      if has_traffic c.ind_msg then st.no_pdsch_start_time
      else if st.no_pdsch_start_time = 0 then c.now_handle
      else st.no_pdsch_start_time := by
  simp only [handle, mac_stats_handle_eq, check_no_pdsch_start_time,
    tracked_no_pdsch_start_time]

/-- A timer that is set is left alone by every call. -/
theorem handle_start_of_ne_zero (st : energy_save_state_t) (c : call)
    (h : st.no_pdsch_start_time ≠ 0) :
    (handle st c).1.no_pdsch_start_time = st.no_pdsch_start_time := by
  rw [handle_no_pdsch_start_time]
  split_ifs <;> simp_all

theorem run_start_of_ne_zero (cs : List call) (st : energy_save_state_t)
    (h : st.no_pdsch_start_time ≠ 0) :
    (run_state st cs).no_pdsch_start_time = st.no_pdsch_start_time := by
  induction cs generalizing st with
  | nil => rfl
  | cons c cs ih =>
    have hc := handle_start_of_ne_zero st c h
    simp only [run_state]
    rw [ih _ (by rw [hc]; exact h), hc]

/-- The failure counter after one call: zero on the exit branch, the
incremented value otherwise. -/
theorem handle_harq_failure_count (st : energy_save_state_t) (c : call) :
    (handle st c).1.harq_failure_count =
      if took_exit (handle st c).2 then 0
      else incr32_iter (harq_entries c.ind_msg) st.harq_failure_count := by
  simp only [handle, mac_stats_handle_eq]
  by_cases ha : entry_cond (tracked st c.ind_msg c.now_handle) c.now_check
  · simp [check_entry _ _ _ _ ha, took_exit_toggle, tracked_harq_failure_count]
  · by_cases hb : exit_cond (tracked st c.ind_msg c.now_handle)
    · simp [check_exit _ _ _ _ ha hb, took_exit_toggle]
    · simp [check_none _ _ _ _ ha hb, took_exit, tracked_harq_failure_count]

/-- C8. Idle detection (amended): for an indication whose entries all have
dl_aggr_tbs = 0 (the empty one included), handled with clock reading t at
line 55: if no_pdsch_start_time was absent (0) before, it equals t
afterwards, hence is present whenever t is not 0; if it was present it keeps
its value; and once it is present after the first indication of a run of
all-idle indications, it has the same value after the whole run, however
long. -/
theorem C8_idle_detection (st : energy_save_state_t) (c : call) (cs : List call)
    (hidle : ∀ x ∈ c :: cs, ∀ ue ∈ x.ind_msg.ue_stats, ue.dl_aggr_tbs = 0) :
    (st.no_pdsch_start_time = 0 →
      (handle st c).1.no_pdsch_start_time = c.now_handle) ∧
    (st.no_pdsch_start_time = 0 → c.now_handle ≠ 0 →
      (handle st c).1.no_pdsch_start_time ≠ 0) ∧
    (st.no_pdsch_start_time ≠ 0 →
      (handle st c).1.no_pdsch_start_time = st.no_pdsch_start_time) ∧
    (st.no_pdsch_start_time ≠ 0 ∨ c.now_handle ≠ 0 →
      (run_state st (c :: cs)).no_pdsch_start_time =
        (handle st c).1.no_pdsch_start_time) := by
  have hc : has_traffic c.ind_msg = false :=
    has_traffic_eq_false _ (hidle c (List.mem_cons_self _ _))
  have h0 : st.no_pdsch_start_time = 0 →
      (handle st c).1.no_pdsch_start_time = c.now_handle := by
    intro h
    rw [handle_no_pdsch_start_time]
    simp [hc, h]
  refine ⟨h0, ?_, handle_start_of_ne_zero st c, ?_⟩
  · intro h ht
    rw [h0 h]
    exact ht
  · intro h
    simp only [run_state]
    apply run_start_of_ne_zero
    by_cases hs : st.no_pdsch_start_time = 0
    · rw [h0 hs]
      rcases h with h | h
      · exact absurd hs h
      · exact h
    · rw [handle_start_of_ne_zero st c hs]
      exact hs

/-- C8 applied to the initial state and three idle indications handled at
1.0 s, 1.1 s and 1.2 s. -/
theorem C8_idle_detection_witness :
    (energy_state.no_pdsch_start_time = 0 →
      (handle energy_state (at_time idle_ind 1000000)).1.no_pdsch_start_time =
        (at_time idle_ind 1000000).now_handle) ∧
    (energy_state.no_pdsch_start_time = 0 →
      (at_time idle_ind 1000000).now_handle ≠ 0 →
      (handle energy_state (at_time idle_ind 1000000)).1.no_pdsch_start_time ≠ 0) ∧
    (energy_state.no_pdsch_start_time ≠ 0 →
      (handle energy_state (at_time idle_ind 1000000)).1.no_pdsch_start_time =
        energy_state.no_pdsch_start_time) ∧
    (energy_state.no_pdsch_start_time ≠ 0 ∨
        (at_time idle_ind 1000000).now_handle ≠ 0 →
      (run_state energy_state
          (at_time idle_ind 1000000 ::
            [at_time idle_ind 1100000, at_time idle_ind 1200000])).no_pdsch_start_time =
        (handle energy_state (at_time idle_ind 1000000)).1.no_pdsch_start_time) :=
  C8_idle_detection energy_state (at_time idle_ind 1000000)
    [at_time idle_ind 1100000, at_time idle_ind 1200000] (by decide)

/-- C8, as stated, fails when the clock reads 0: the timer is absent in the
initial state, the indication is all idle, and after the call the timer is
still 0, that is absent. -/
theorem C8_timer_absent_after_idle_at_zero :
    energy_state.no_pdsch_start_time = 0 ∧
    (∀ ue ∈ idle_ind.ue_stats, ue.dl_aggr_tbs = 0) ∧
    (handle energy_state (at_time idle_ind 0)).1.no_pdsch_start_time = 0 := by
  decide

/-- C9. Failure counter (amended): after a call of mac_stats_handle from a
state whose counter is a 32-bit value, harq_failure_count is 0 if the call
took the DEEP_SLEEP to ACTIVE transition, and otherwise it is its value
before the call plus the number of entries with dl_harq_round > 0, reduced
modulo 2^32; so when that sum stays below 2^32 a call without exit
transition raises the counter by exactly that number and never lowers
it. -/
theorem C9_failure_counter (st : energy_save_state_t) (c : call)
    (hc : st.harq_failure_count < UINT32_RANGE) :
    (took_exit (handle st c).2 = true → (handle st c).1.harq_failure_count = 0) ∧
    (took_exit (handle st c).2 = false →
      (handle st c).1.harq_failure_count =
        (st.harq_failure_count + harq_entries c.ind_msg) % 2 ^ 32) ∧
    (took_exit (handle st c).2 = false →
      st.harq_failure_count + harq_entries c.ind_msg < 2 ^ 32 →
      (handle st c).1.harq_failure_count =
          st.harq_failure_count + harq_entries c.ind_msg ∧
        st.harq_failure_count ≤ (handle st c).1.harq_failure_count) := by
  have hx : took_exit (handle st c).2 = false →
      (handle st c).1.harq_failure_count =
        (st.harq_failure_count + harq_entries c.ind_msg) % 2 ^ 32 := by
    intro h
    rw [handle_harq_failure_count, h, incr32_iter_eq _ _ hc]
    rfl
  refine ⟨?_, hx, ?_⟩
  · intro h
    rw [handle_harq_failure_count, h]
    rfl
  · intro h hlt
    rw [hx h, Nat.mod_eq_of_lt hlt]
    exact ⟨rfl, Nat.le_add_right _ _⟩

/-- C9 applied to the initial state and an indication with one user in
retransmission round 1. -/
theorem C9_failure_counter_witness :
    energy_state.harq_failure_count < UINT32_RANGE ∧
    ((took_exit (handle energy_state (at_time harq_ind 1000000)).2 = true →
      (handle energy_state (at_time harq_ind 1000000)).1.harq_failure_count = 0) ∧
    (took_exit (handle energy_state (at_time harq_ind 1000000)).2 = false →
      (handle energy_state (at_time harq_ind 1000000)).1.harq_failure_count =
        (energy_state.harq_failure_count +
          harq_entries (at_time harq_ind 1000000).ind_msg) % 2 ^ 32) ∧
    (took_exit (handle energy_state (at_time harq_ind 1000000)).2 = false →
      energy_state.harq_failure_count +
          harq_entries (at_time harq_ind 1000000).ind_msg < 2 ^ 32 →
      (handle energy_state (at_time harq_ind 1000000)).1.harq_failure_count =
          energy_state.harq_failure_count +
            harq_entries (at_time harq_ind 1000000).ind_msg ∧
        energy_state.harq_failure_count ≤
          (handle energy_state (at_time harq_ind 1000000)).1.harq_failure_count)) :=
  ⟨by decide, C9_failure_counter energy_state (at_time harq_ind 1000000) (by decide)⟩

/-- C9, as stated, fails when the 32-bit counter is at its maximum: one
entry with dl_harq_round > 0 is handled, no exit transition is taken, and
harq_failure_count goes from 4294967295 to 0 instead of 4294967296. -/
theorem C9_counter_wraps_without_exit :
    harq_entries harq_ind = 1 ∧
    took_exit
      (handle { energy_state with harq_failure_count := 4294967295 }
        (at_time harq_ind 1000000)).2 = false ∧
    (handle { energy_state with harq_failure_count := 4294967295 }
        (at_time harq_ind 1000000)).1.harq_failure_count = 0 := by
  decide

/-! ## Runs of idle indications -/

theorem sub64_of_le (a b : Nat) (hab : b ≤ a) (ha : a < UINT64_RANGE) :
    sub64 a b = a - b := by
  unfold sub64
  have h : a + UINT64_RANGE - b = (a - b) + UINT64_RANGE := by omega
  rw [h, Nat.add_mod_right]
  exact Nat.mod_eq_of_lt (by omega)

/-- An indication without traffic and without retransmission, handled when
the timer is set to `t0`, leaves the state `idle_since t0` to the check. -/
theorem tracked_idle_since (t0 : Nat) (c : call) (h0 : 0 < t0)
    (hidle : ∀ ue ∈ c.ind_msg.ue_stats, ue.dl_aggr_tbs = 0 ∧ ue.dl_harq_round = 0) :
    tracked (idle_since t0) c.ind_msg c.now_handle = idle_since t0 := by
  rw [tracked_eq, has_traffic_eq_false _ (fun ue hue => (hidle ue hue).1),
    harq_entries_eq_zero _ (fun ue hue => (hidle ue hue).2)]
  have : t0 ≠ 0 := by omega
  simp [idle_since, energy_state, incr32_iter_zero, this]

/-- The first idle indication starts the timer at its own clock reading. -/
theorem tracked_energy_state (c : call)
    (hidle : ∀ ue ∈ c.ind_msg.ue_stats, ue.dl_aggr_tbs = 0 ∧ ue.dl_harq_round = 0) :
    tracked energy_state c.ind_msg c.now_handle = idle_since c.now_handle := by
  rw [tracked_eq, has_traffic_eq_false _ (fun ue hue => (hidle ue hue).1),
    harq_entries_eq_zero _ (fun ue hue => (hidle ue hue).2)]
  simp [idle_since, energy_state, incr32_iter_zero]

theorem tracked_asleep_since (t0 : Nat) (c : call) (h0 : 0 < t0)
    (hidle : ∀ ue ∈ c.ind_msg.ue_stats, ue.dl_aggr_tbs = 0 ∧ ue.dl_harq_round = 0) :
    tracked (asleep_since t0) c.ind_msg c.now_handle = asleep_since t0 := by
  rw [tracked_eq, has_traffic_eq_false _ (fun ue hue => (hidle ue hue).1),
    harq_entries_eq_zero _ (fun ue hue => (hidle ue hue).2)]
  have : t0 ≠ 0 := by omega
  simp [asleep_since, incr32_iter_zero, this]

theorem entry_cond_idle_since (t0 t : Nat) (h0 : 0 < t0) (hle : t0 ≤ t)
    (ht : t < UINT64_RANGE) :
    entry_cond (idle_since t0) t ↔ PDSCH_TIMEOUT_US ≤ t - t0 := by
  unfold entry_cond no_pdsch_duration
  simp [idle_since, energy_state, h0, sub64_of_le t t0 hle ht, MAX_HARQ_FAILURES]

/-- The check on `idle_since t0`: entry when the threshold is reached, nothing
otherwise. -/
theorem check_idle_since (t0 : Nat) (node : e2_node_t) (t : Nat) (b : Bool)
    (h0 : 0 < t0) (hle : t0 ≤ t) (ht : t < UINT64_RANGE) :
    check_energy_save_conditions (idle_since t0) node t b =
      if PDSCH_TIMEOUT_US ≤ t - t0 then
        (asleep_since t0, toggle_transmit_chain node false b)
      else (idle_since t0, []) := by
  by_cases h : PDSCH_TIMEOUT_US ≤ t - t0
  · rw [if_pos h, check_entry _ _ _ _ ((entry_cond_idle_since t0 t h0 hle ht).2 h)]
    simp [idle_since, asleep_since, energy_state, incr32, UINT32_RANGE]
  · rw [if_neg h]
    apply check_none
    · exact fun hc => h ((entry_cond_idle_since t0 t h0 hle ht).1 hc)
    · simp [exit_cond, idle_since, energy_state]

/-- The check on `asleep_since t0` does nothing. -/
theorem check_asleep_since (t0 : Nat) (node : e2_node_t) (t : Nat) (b : Bool)
    (h0 : 0 < t0) :
    check_energy_save_conditions (asleep_since t0) node t b =
      (asleep_since t0, []) := by
  apply check_none
  · simp [entry_cond, asleep_since]
  · have : t0 ≠ 0 := by omega
    simp [exit_cond, asleep_since, this]

theorem handle_idle_since (t0 : Nat) (c : call) (h0 : 0 < t0)
    (hc : idle_after t0 c) :
    handle (idle_since t0) c =
      if past_threshold t0 c then
        (asleep_since t0, toggle_transmit_chain c.node false c.has_value)
      else (idle_since t0, []) := by
  simp only [handle, mac_stats_handle_eq, tracked_idle_since t0 c h0 hc.1,
    check_idle_since t0 c.node c.now_check c.has_value h0 hc.2.1 hc.2.2,
    past_threshold, decide_eq_true_eq]

theorem handle_energy_state (c : call) (h0 : 0 < c.now_handle)
    (hc : idle_after c.now_handle c) :
    handle energy_state c = handle (idle_since c.now_handle) c := by
  simp only [handle, mac_stats_handle_eq, tracked_idle_since c.now_handle c h0 hc.1,
    tracked_energy_state c hc.1]

theorem handle_asleep_since (t0 : Nat) (c : call) (h0 : 0 < t0)
    (hc : idle_after t0 c) :
    handle (asleep_since t0) c = (asleep_since t0, []) := by
  simp only [handle, mac_stats_handle_eq, tracked_asleep_since t0 c h0 hc.1,
    check_asleep_since t0 c.node c.now_check c.has_value h0]

theorem run_state_asleep_since (t0 : Nat) (cs : List call) (h0 : 0 < t0)
    (hcs : ∀ c ∈ cs, idle_after t0 c) :
    run_state (asleep_since t0) cs = asleep_since t0 := by
  induction cs with
  | nil => rfl
  | cons c cs ih =>
    simp only [run_state, handle_asleep_since t0 c h0 (hcs c (List.mem_cons_self _ _))]
    exact ih (fun x hx => hcs x (List.mem_cons_of_mem _ hx))

theorem entry_count_asleep_since (t0 : Nat) (cs : List call) (h0 : 0 < t0)
    (hcs : ∀ c ∈ cs, idle_after t0 c) :
    entry_count (run_calls (asleep_since t0) cs) = 0 := by
  induction cs with
  | nil => rfl
  | cons c cs ih =>
    simp only [run_calls, handle_asleep_since t0 c h0 (hcs c (List.mem_cons_self _ _))]
    have := ih (fun x hx => hcs x (List.mem_cons_of_mem _ hx))
    simpa [entry_count, took_entry] using this

/-- The state after a run of idle indications from `idle_since t0`. -/
theorem run_state_idle_since (t0 : Nat) (cs : List call) (h0 : 0 < t0)
    (hcs : ∀ c ∈ cs, idle_after t0 c) :
    run_state (idle_since t0) cs =
      if cs.any (past_threshold t0) then asleep_since t0 else idle_since t0 := by
  induction cs with
  | nil => rfl
  | cons c cs ih =>
    have hc := hcs c (List.mem_cons_self _ _)
    have hrest : ∀ x ∈ cs, idle_after t0 x := fun x hx => hcs x (List.mem_cons_of_mem _ hx)
    simp only [run_state, handle_idle_since t0 c h0 hc, List.any_cons]
    by_cases h : past_threshold t0 c = true
    · simp [h, run_state_asleep_since t0 cs h0 hrest]
    · simp [h, ih hrest]

/-- The number of entry transitions in a run of idle indications from
`idle_since t0`. -/
theorem entry_count_idle_since (t0 : Nat) (cs : List call) (h0 : 0 < t0)
    (hcs : ∀ c ∈ cs, idle_after t0 c) :
    entry_count (run_calls (idle_since t0) cs) =
      if cs.any (past_threshold t0) then 1 else 0 := by
  induction cs with
  | nil => rfl
  | cons c cs ih =>
    have hc := hcs c (List.mem_cons_self _ _)
    have hrest : ∀ x ∈ cs, idle_after t0 x := fun x hx => hcs x (List.mem_cons_of_mem _ hx)
    simp only [run_calls, handle_idle_since t0 c h0 hc, List.any_cons]
    by_cases h : past_threshold t0 c = true
    · have := entry_count_asleep_since t0 cs h0 hrest
      simp only [entry_count] at this
      simp [h, entry_count, took_entry_toggle, this]
    · have := ih hrest
      simp only [entry_count] at this
      simp [h, entry_count, took_entry, this]

/-- In a non-decreasing sequence of readings that starts with `t0`, every
check reading is at least `t0`. -/
theorem le_now_check_of_sorted (t0 : Nat) (cs : List call)
    (h : ∀ x ∈ readings cs, t0 ≤ x) : ∀ c ∈ cs, t0 ≤ c.now_check := by
  induction cs with
  | nil => intro c hc; cases hc
  | cons d ds ih =>
    intro c hc
    simp only [readings, List.mem_cons] at h
    rcases List.mem_cons.1 hc with rfl | hc
    · exact h _ (Or.inr (Or.inl rfl))
    · exact ih (fun x hx => h x (Or.inr (Or.inr hx))) c hc

theorem past_threshold_iff (t0 : Nat) (c : call) :
    past_threshold t0 c = true ↔ 500000 ≤ c.now_check - t0 := by
  simp [past_threshold, PDSCH_TIMEOUT_US, PDSCH_TIMEOUT_MS]

/-- C3. Entry threshold (amended): from the initial ACTIVE state, for every
sequence of indications whose entries all have dl_aggr_tbs = 0 and
dl_harq_round = 0, handled at non-decreasing 64-bit clock readings that
begin at t0 > 0: an indication takes the entry transition exactly when its
check reads the clock at t with t - t0 >= 500000 and every earlier
indication had t - t0 <= 499999 (so none does at 499999 or less, and the
first at 500000 or more does); the number of entry transitions over the
whole sequence is 1 if some indication reaches the threshold and 0
otherwise; and energy_save_cycles ends equal to that number. -/
theorem C3_entry_threshold (c0 : call) (cs : List call)
    (hidle : ∀ c ∈ c0 :: cs, ∀ ue ∈ c.ind_msg.ue_stats,
      ue.dl_aggr_tbs = 0 ∧ ue.dl_harq_round = 0)
    (hmono : (readings (c0 :: cs)).Sorted (fun a b => a ≤ b))
    (hrange : ∀ c ∈ c0 :: cs, c.now_check < 2 ^ 64)
    (h0 : 0 < c0.now_handle) :
    (∀ pre c post, c0 :: cs = pre ++ c :: post →
      (took_entry (handle (run_state energy_state pre) c).2 = true ↔
        500000 ≤ c.now_check - c0.now_handle ∧
          ∀ p ∈ pre, p.now_check - c0.now_handle ≤ 499999)) ∧
    entry_count (run_calls energy_state (c0 :: cs)) =
      (if ∃ c ∈ c0 :: cs, 500000 ≤ c.now_check - c0.now_handle then 1 else 0) ∧
    (run_state energy_state (c0 :: cs)).energy_save_cycles =
      entry_count (run_calls energy_state (c0 :: cs)) := by
  have hle : ∀ c ∈ c0 :: cs, c0.now_handle ≤ c.now_check := by
    apply le_now_check_of_sorted
    intro x hx
    simp only [readings, List.mem_cons] at hx
    have hp := List.pairwise_cons.1 hmono
    rcases hx with rfl | hx
    · exact le_refl _
    · exact hp.1 x (by simpa [readings] using hx)
  have hall : ∀ c ∈ c0 :: cs, idle_after c0.now_handle c :=
    fun c hc => ⟨hidle c hc, hle c hc, hrange c hc⟩
  have hfirst : handle energy_state c0 = handle (idle_since c0.now_handle) c0 :=
    handle_energy_state c0 h0 (hall c0 (List.mem_cons_self _ _))
  refine ⟨?_, ?_, ?_⟩
  · intro pre c post heq
    have hc : idle_after c0.now_handle c := hall c (by rw [heq]; simp)
    have hpre : ∀ p ∈ pre, idle_after c0.now_handle p :=
      fun p hp => hall p (by rw [heq]; simp [hp])
    have hsame : handle (run_state energy_state pre) c =
        handle (run_state (idle_since c0.now_handle) pre) c := by
      cases pre with
      | nil =>
        simp only [List.nil_append, List.cons.injEq] at heq
        rw [← heq.1]
        exact hfirst
      | cons d pre =>
        simp only [List.cons_append, List.cons.injEq] at heq
        rw [← heq.1]
        simp only [run_state, hfirst]
    rw [hsame, run_state_idle_since _ pre h0 hpre]
    by_cases hany : pre.any (past_threshold c0.now_handle) = true
    · rw [if_pos hany, handle_asleep_since _ c h0 hc]
      obtain ⟨p, hp, hpt⟩ := List.any_eq_true.1 hany
      have h5 := (past_threshold_iff _ _).1 hpt
      constructor
      · intro h
        simp [took_entry] at h
      · rintro ⟨_, hall5⟩
        have := hall5 p hp
        omega
    · rw [if_neg hany, handle_idle_since _ c h0 hc]
      have hnone : ∀ p ∈ pre, p.now_check - c0.now_handle ≤ 499999 := by
        intro p hp
        by_contra hcon
        apply hany
        exact List.any_eq_true.2 ⟨p, hp, (past_threshold_iff _ _).2 (by omega)⟩
      by_cases hpt : past_threshold c0.now_handle c = true
      · simp only [hpt, if_true, took_entry_toggle]
        exact ⟨fun _ => ⟨(past_threshold_iff _ _).1 hpt, hnone⟩, fun _ => rfl⟩
      · simp only [hpt]
        have : ¬ 500000 ≤ c.now_check - c0.now_handle :=
          fun h => hpt ((past_threshold_iff _ _).2 h)
        simp [took_entry, this]
  · have hcalls : run_calls energy_state (c0 :: cs) =
        run_calls (idle_since c0.now_handle) (c0 :: cs) := by
      simp only [run_calls, hfirst]
    rw [hcalls, entry_count_idle_since _ _ h0 hall]
    have hiff : (c0 :: cs).any (past_threshold c0.now_handle) = true ↔
        ∃ c ∈ c0 :: cs, 500000 ≤ c.now_check - c0.now_handle := by
      rw [List.any_eq_true]
      constructor
      · rintro ⟨c, hc, h⟩
        exact ⟨c, hc, (past_threshold_iff _ _).1 h⟩
      · rintro ⟨c, hc, h⟩
        exact ⟨c, hc, (past_threshold_iff _ _).2 h⟩
    by_cases h : (c0 :: cs).any (past_threshold c0.now_handle) = true
    · rw [if_pos h, if_pos (hiff.1 h)]
    · rw [if_neg h, if_neg (fun hx => h (hiff.2 hx))]
  · have h := cycles_run (c0 :: cs) energy_state reach_inv_init
    simpa [energy_state] using h

/-- C3 applied to idle indications handled at 1000000, 1499999, 1500000 and
1600000 microseconds. -/
theorem C3_entry_threshold_witness :
    (∀ pre c post,
      at_time idle_ind 1000000 ::
          [at_time idle_ind 1499999, at_time idle_ind 1500000,
           at_time idle_ind 1600000] = pre ++ c :: post →
      (took_entry (handle (run_state energy_state pre) c).2 = true ↔
        500000 ≤ c.now_check - (at_time idle_ind 1000000).now_handle ∧
          ∀ p ∈ pre,
            p.now_check - (at_time idle_ind 1000000).now_handle ≤ 499999)) ∧
    entry_count (run_calls energy_state
        (at_time idle_ind 1000000 ::
          [at_time idle_ind 1499999, at_time idle_ind 1500000,
           at_time idle_ind 1600000])) =
      (if ∃ c ∈ at_time idle_ind 1000000 ::
            [at_time idle_ind 1499999, at_time idle_ind 1500000,
             at_time idle_ind 1600000],
          500000 ≤ c.now_check - (at_time idle_ind 1000000).now_handle
        then 1 else 0) ∧
    (run_state energy_state
        (at_time idle_ind 1000000 ::
          [at_time idle_ind 1499999, at_time idle_ind 1500000,
           at_time idle_ind 1600000])).energy_save_cycles =
      entry_count (run_calls energy_state
        (at_time idle_ind 1000000 ::
          [at_time idle_ind 1499999, at_time idle_ind 1500000,
           at_time idle_ind 1600000])) :=
  C3_entry_threshold (at_time idle_ind 1000000)
    [at_time idle_ind 1499999, at_time idle_ind 1500000, at_time idle_ind 1600000]
    (by decide) (by decide) (by decide) (by decide)

/-- C3, as stated, fails when the clock begins at t0 = 0: three idle
indications are handled at 0, 100000 and 500000 microseconds, the third is
the first with t - t0 >= 500000, and it takes no entry transition;
energy_save_cycles stays 0. The reading 0 of the first indication leaves the
timer absent, so the timer starts at 100000. -/
theorem C3_no_entry_when_clock_starts_at_zero :
    (∀ c ∈ [at_time idle_ind 0, at_time idle_ind 100000, at_time idle_ind 500000],
      ∀ ue ∈ c.ind_msg.ue_stats, ue.dl_aggr_tbs = 0 ∧ ue.dl_harq_round = 0) ∧
    (readings [at_time idle_ind 0, at_time idle_ind 100000,
      at_time idle_ind 500000]).Sorted (fun a b => a ≤ b) ∧
    500000 ≤ (at_time idle_ind 500000).now_check - (at_time idle_ind 0).now_handle ∧
    run_calls energy_state
      [at_time idle_ind 0, at_time idle_ind 100000, at_time idle_ind 500000] =
      [[], [], []] ∧
    (run_state energy_state
      [at_time idle_ind 0, at_time idle_ind 100000,
        at_time idle_ind 500000]).energy_save_cycles = 0 := by
  decide

/-! ## The failure gate -/

theorem total_harq_entries_cons (c : call) (cs : List call) :
    total_harq_entries (c :: cs) = harq_entries c.ind_msg + total_harq_entries cs := by
  simp [total_harq_entries]

theorem total_harq_entries_append (xs ys : List call) :
    total_harq_entries (xs ++ ys) = total_harq_entries xs + total_harq_entries ys := by
  simp [total_harq_entries]

/-- Without exit transition, a run adds its failing entries to the counter
modulo 2^32. -/
theorem run_count_of_no_exit (cs : List call) (st : energy_save_state_t)
    (hc : st.harq_failure_count < UINT32_RANGE)
    (hexit : ∀ x ∈ run_calls st cs, took_exit x = false) :
    (run_state st cs).harq_failure_count =
      (st.harq_failure_count + total_harq_entries cs) % UINT32_RANGE := by
  induction cs generalizing st with
  | nil => simp [run_state, total_harq_entries, Nat.mod_eq_of_lt hc]
  | cons c cs ih =>
    have hx : took_exit (handle st c).2 = false :=
      hexit _ (by simp [run_calls])
    have h1 : (handle st c).1.harq_failure_count =
        (st.harq_failure_count + harq_entries c.ind_msg) % UINT32_RANGE := by
      rw [handle_harq_failure_count, hx, incr32_iter_eq _ _ hc]
      rfl
    have hlt : (handle st c).1.harq_failure_count < UINT32_RANGE := by
      rw [h1]; exact Nat.mod_lt _ (by decide)
    simp only [run_state]
    rw [ih _ hlt (fun x hx => hexit x (by simp [run_calls, hx])), h1,
      total_harq_entries_cons, Nat.mod_add_mod, Nat.add_assoc]

/-- A call whose check sees a positive failure counter does not take the
entry branch. -/
theorem no_entry_of_count_pos (st : energy_save_state_t) (c : call)
    (h : 0 < incr32_iter (harq_entries c.ind_msg) st.harq_failure_count) :
    took_entry (handle st c).2 = false ∧
    (handle st c).1.energy_save_cycles = st.energy_save_cycles ∧
    (st.deep_sleep_active = false → (handle st c).1.deep_sleep_active = false) := by
  have ha : ¬ entry_cond (tracked st c.ind_msg c.now_handle) c.now_check := by
    rintro ⟨_, hcount, _⟩
    rw [tracked_harq_failure_count] at hcount
    simp only [MAX_HARQ_FAILURES] at hcount
    omega
  simp only [handle, mac_stats_handle_eq]
  by_cases hb : exit_cond (tracked st c.ind_msg c.now_handle)
  · simp [check_exit _ _ _ _ ha hb, took_entry_toggle, tracked_energy_save_cycles]
  · simp [check_none _ _ _ _ ha hb, took_entry, tracked_energy_save_cycles,
      tracked_deep_sleep_active]

/-- C4. Failure gate (amended): from any state whose counter is a 32-bit
value, once an indication containing an entry with dl_harq_round > 0 has
been handled, a later call of mac_stats_handle does not take the ACTIVE to
DEEP_SLEEP transition (no disable command, energy_save_cycles unchanged,
deep_sleep_active does not go from false to true), provided that no
DEEP_SLEEP to ACTIVE transition was taken in between and that the failing
entries counted so far, added to the initial counter, stay below 2^32. -/
theorem C4_failure_gate (st : energy_save_state_t) (c : call) (pre : List call)
    (c2 : call)
    (hc : st.harq_failure_count < UINT32_RANGE)
    (hh : ∃ ue ∈ c.ind_msg.ue_stats, ue.dl_harq_round > 0)
    (hsum : st.harq_failure_count + total_harq_entries (c :: pre ++ [c2]) < 2 ^ 32)
    (hexit : ∀ x ∈ run_calls st (c :: pre), took_exit x = false) :
    took_entry (handle (run_state st (c :: pre)) c2).2 = false ∧
    (handle (run_state st (c :: pre)) c2).1.energy_save_cycles =
      (run_state st (c :: pre)).energy_save_cycles ∧
    ((run_state st (c :: pre)).deep_sleep_active = false →
      (handle (run_state st (c :: pre)) c2).1.deep_sleep_active = false) := by
  apply no_entry_of_count_pos
  have h1 := run_count_of_no_exit (c :: pre) st hc hexit
  have hpos : 0 < harq_entries c.ind_msg := by
    unfold harq_entries
    rw [List.countP_pos_iff]
    obtain ⟨ue, hue, hr⟩ := hh
    exact ⟨ue, hue, by simpa using hr⟩
  have hsplit : total_harq_entries (c :: pre ++ [c2]) =
      total_harq_entries (c :: pre) + harq_entries c2.ind_msg := by
    rw [total_harq_entries_append]
    simp [total_harq_entries]
  have hcons := total_harq_entries_cons c pre
  have hR : UINT32_RANGE = 2 ^ 32 := rfl
  rw [hsplit] at hsum
  have hlt1 : st.harq_failure_count + total_harq_entries (c :: pre) < UINT32_RANGE := by
    rw [hR]; omega
  rw [Nat.mod_eq_of_lt hlt1] at h1
  have hlt2 : (run_state st (c :: pre)).harq_failure_count < UINT32_RANGE := by
    rw [h1]; exact hlt1
  rw [incr32_iter_eq _ _ hlt2, h1, Nat.mod_eq_of_lt (by rw [hR]; omega)]
  omega

/-- C4 applied to the initial state: a failing indication at 1.0 s, then
idle indications at 1.3 s and 1.6 s. -/
theorem C4_failure_gate_witness :
    energy_state.harq_failure_count < UINT32_RANGE ∧
    (took_entry (handle (run_state energy_state
        (at_time harq_ind 1000000 :: [at_time idle_ind 1300000]))
        (at_time idle_ind 1600000)).2 = false ∧
    (handle (run_state energy_state
        (at_time harq_ind 1000000 :: [at_time idle_ind 1300000]))
        (at_time idle_ind 1600000)).1.energy_save_cycles =
      (run_state energy_state
        (at_time harq_ind 1000000 :: [at_time idle_ind 1300000])).energy_save_cycles ∧
    ((run_state energy_state
        (at_time harq_ind 1000000 :: [at_time idle_ind 1300000])).deep_sleep_active
        = false →
      (handle (run_state energy_state
        (at_time harq_ind 1000000 :: [at_time idle_ind 1300000]))
        (at_time idle_ind 1600000)).1.deep_sleep_active = false)) :=
  ⟨by decide,
   C4_failure_gate energy_state (at_time harq_ind 1000000)
    [at_time idle_ind 1300000] (at_time idle_ind 1600000)
    (by decide) (by decide) (by decide) (by decide)⟩

/-- The state after one indication with `n < 2^32` failing entries and no
traffic, handled from the initial state at a clock reading `t > 0`. -/
theorem handle_harq_burst (n t : Nat) (hn : 0 < n) (hlt : n < UINT32_RANGE)
    (ht : 0 < t) :
    handle energy_state (at_time (harq_burst n) t) =
      ({ energy_state with no_pdsch_start_time := t, harq_failure_count := n }, []) := by
  have hne : t ≠ 0 := by omega
  have htr : has_traffic (harq_burst n) = false :=
    has_traffic_eq_false _ (fun ue hue => by
      rw [List.eq_of_mem_replicate hue])
  have hcnt : harq_entries (harq_burst n) = n := by
    simp [harq_entries, harq_burst, List.countP_replicate]
  have htk : tracked energy_state (harq_burst n) t =
      { energy_state with no_pdsch_start_time := t, harq_failure_count := n } := by
    rw [tracked_eq, htr, hcnt, incr32_iter_eq _ _ (by decide)]
    simp [energy_state, Nat.mod_eq_of_lt hlt]
  simp only [handle, mac_stats_handle_eq, at_time, htk]
  apply check_none
  · rintro ⟨_, hcount, _⟩
    simp only [MAX_HARQ_FAILURES] at hcount
    change n ≤ 0 at hcount
    omega
  · simp [exit_cond, hne]

/-- C4, as stated, fails when the 32-bit counter wraps: from the initial
state, an indication with 4294967295 failing entries and then one with a
single failing entry are handled (the counter passes 4294967295 and wraps
to 0), no exit transition is taken, and the idle indication handled 500 ms
after the first takes the ACTIVE to DEEP_SLEEP transition. -/
theorem C4_entry_after_counter_wrap :
    (∃ ue ∈ harq_ind.ue_stats, ue.dl_harq_round > 0) ∧
    run_calls energy_state
      [at_time (harq_burst 4294967295) 1000000, at_time harq_ind 1000001,
       at_time idle_ind 1500000] =
      [[], [], toggle_transmit_chain node1 false true] ∧
    (run_state energy_state
      [at_time (harq_burst 4294967295) 1000000, at_time harq_ind 1000001,
       at_time idle_ind 1500000]).deep_sleep_active = true := by
  have h := handle_harq_burst 4294967295 1000000 (by decide) (by decide) (by decide)
  refine ⟨by decide, ?_, ?_⟩
  · rw [run_calls_cons, h]
    decide
  · rw [run_state_cons, h]
    decide

/-! ## Single calls -/

/-- C1. Exit from deep sleep, evaluated on the scenario of the
specification with the clock starting at one second: six idle indications
from 0 to 500 ms put the node into deep sleep (one disable command on the
sixth), and the indication with 120 bytes scheduled at 501 ms is then
handled in the DEEP_SLEEP state with the idle timer still set; mac_stats_handle sends no command and leaves
deep_sleep_active true and tx_active false, where the claim requires the
exit transition. -/
theorem C1_no_exit_on_traffic_in_deep_sleep :
    run_calls energy_state scenario_idle =
      [[], [], [], [], [], toggle_transmit_chain node1 false true] ∧
    run_state energy_state scenario_idle =
      { tx_active := false, last_pdsch_time := 0, no_pdsch_start_time := 1000000,
        harq_failure_count := 0, deep_sleep_active := true,
        energy_save_cycles := 1 } ∧
    has_traffic traffic_ind = true ∧
    handle (run_state energy_state scenario_idle) (at_time traffic_ind 1501000) =
      ({ tx_active := false, last_pdsch_time := 1501000,
         no_pdsch_start_time := 1000000, harq_failure_count := 0,
         deep_sleep_active := true, energy_save_cycles := 1 }, []) := by
  decide

/-- C2. Power-down on an indication that carries traffic, evaluated: after
one idle indication at 1 s, an indication with 120 bytes scheduled handled
at 1.6 s takes the ACTIVE to DEEP_SLEEP transition: deep_sleep_active goes
from false to true, energy_save_cycles goes from 0 to 1 and
toggle_transmit_chain(node, false) is called. -/
theorem C2_entry_on_traffic_indication :
    run_state energy_state [at_time idle_ind 1000000] =
      { energy_state with no_pdsch_start_time := 1000000 } ∧
    has_traffic traffic_ind = true ∧
    handle { energy_state with no_pdsch_start_time := 1000000 }
        (at_time traffic_ind 1600000) =
      ({ tx_active := false, last_pdsch_time := 1600000,
         no_pdsch_start_time := 1000000, harq_failure_count := 0,
         deep_sleep_active := true, energy_save_cycles := 1 },
       toggle_transmit_chain node1 false true) := by
  decide

/-- C7. Activity and the idle timer, evaluated: in the state reached by one
idle indication at 1 s (no_pdsch_start_time = 1000000), an indication with
120 bytes scheduled handled at 1.2 s sets pdsch_scheduled and
last_pdsch_time = 1200000, but the tracking step leaves
no_pdsch_start_time at 1000000 instead of clearing it, and so does the
whole call. -/
theorem C7_idle_timer_not_cleared :
    run_state energy_state [at_time idle_ind 1000000] =
      { energy_state with no_pdsch_start_time := 1000000 } ∧
    (ue_loop { energy_state with no_pdsch_start_time := 1000000 }
        traffic_ind).pdsch_scheduled = true ∧
    update_pdsch_tracking
        (ue_loop { energy_state with no_pdsch_start_time := 1000000 } traffic_ind).st
        (ue_loop { energy_state with no_pdsch_start_time := 1000000 }
          traffic_ind).pdsch_scheduled
        1200000 =
      { energy_state with
        last_pdsch_time := 1200000, no_pdsch_start_time := 1000000 } ∧
    (handle { energy_state with no_pdsch_start_time := 1000000 }
        (at_time traffic_ind 1200000)).1.no_pdsch_start_time = 1000000 := by
  decide

/-! ## One call: branches, commands and the send outcome -/

/-- The three ways a call can end, with the state and the commands of
each. -/
theorem handle_cases (st : energy_save_state_t) (c : call) :
    (entry_cond (tracked st c.ind_msg c.now_handle) c.now_check ∧
      handle st c =
        ({ tracked st c.ind_msg c.now_handle with
            tx_active := false
            deep_sleep_active := true
            energy_save_cycles :=
              incr32 (tracked st c.ind_msg c.now_handle).energy_save_cycles },
          toggle_transmit_chain c.node false c.has_value)) ∨
    (¬ entry_cond (tracked st c.ind_msg c.now_handle) c.now_check ∧
      exit_cond (tracked st c.ind_msg c.now_handle) ∧
      handle st c =
        ({ tracked st c.ind_msg c.now_handle with
            tx_active := true
            deep_sleep_active := false
            harq_failure_count := 0 },
          toggle_transmit_chain c.node true c.has_value)) ∨
    (¬ entry_cond (tracked st c.ind_msg c.now_handle) c.now_check ∧
      ¬ exit_cond (tracked st c.ind_msg c.now_handle) ∧
      handle st c = (tracked st c.ind_msg c.now_handle, [])) := by
  by_cases ha : entry_cond (tracked st c.ind_msg c.now_handle) c.now_check
  · exact Or.inl ⟨ha, check_entry _ _ _ _ ha⟩
  · by_cases hb : exit_cond (tracked st c.ind_msg c.now_handle)
    · exact Or.inr (Or.inl ⟨ha, hb, check_exit _ _ _ _ ha hb⟩)
    · exact Or.inr (Or.inr ⟨ha, hb, check_none _ _ _ _ ha hb⟩)

/-- C11. One transition and one command per update: a call of
mac_stats_handle, from any state, calls toggle_transmit_chain at most once
and only for the node that delivered the indication; it calls it with
enable = false exactly when deep_sleep_active goes from false to true
(ACTIVE to DEEP_SLEEP), with enable = true exactly when deep_sleep_active
goes from true to false (DEEP_SLEEP to ACTIVE), and not at all exactly when
deep_sleep_active is unchanged; so at most one of the two transitions is
taken. -/
theorem C11_one_transition_one_command (st : energy_save_state_t) (c : call) :
    (handle st c).2.length ≤ 1 ∧
    (∀ x ∈ (handle st c).2, x.node = c.node) ∧
    ((handle st c).2 = toggle_transmit_chain c.node false c.has_value ↔
      st.deep_sleep_active = false ∧ (handle st c).1.deep_sleep_active = true) ∧
    ((handle st c).2 = toggle_transmit_chain c.node true c.has_value ↔
      st.deep_sleep_active = true ∧ (handle st c).1.deep_sleep_active = false) ∧
    ((handle st c).2 = [] ↔
      (handle st c).1.deep_sleep_active = st.deep_sleep_active) ∧
    ((handle st c).2 = [] ∨
      (handle st c).2 = toggle_transmit_chain c.node false c.has_value ∨
      (handle st c).2 = toggle_transmit_chain c.node true c.has_value) ∧
    ¬ (took_entry (handle st c).2 = true ∧ took_exit (handle st c).2 = true) := by
  have hds := tracked_deep_sleep_active st c.ind_msg c.now_handle
  rcases handle_cases st c with ⟨ha, h⟩ | ⟨_, hb, h⟩ | ⟨_, hb, h⟩
  · have hd : st.deep_sleep_active = false := by rw [← hds]; exact ha.2.2.2
    rw [h]
    simp [toggle_transmit_chain, hd, took_entry, took_exit]
  · have hd : st.deep_sleep_active = true := by rw [← hds]; exact hb.2
    rw [h]
    simp [toggle_transmit_chain, hd, took_entry, took_exit]
  · rw [h]
    simp [toggle_transmit_chain, hds, took_entry, took_exit]

/-- C12. A control-send failure does not change the decision: the
energy_state after mac_stats_handle is the same whatever outcome
e2_ctrl_req_out reports, and the control calls made are the same apart
from that reported outcome; so the state mutation of a transition is
applied both when the send succeeds and when it fails. -/
theorem C12_send_outcome_does_not_change_state (st : energy_save_state_t)
    (node : e2_node_t) (ind_msg : mac_ind_msg_t) (now_handle now_check : Nat) :
    (mac_stats_handle st node ind_msg now_handle now_check true).1 =
      (mac_stats_handle st node ind_msg now_handle now_check false).1 ∧
    (mac_stats_handle st node ind_msg now_handle now_check true).2.map
        (with_outcome false) =
      (mac_stats_handle st node ind_msg now_handle now_check false).2 ∧
    ((mac_stats_handle st node ind_msg now_handle now_check false).1.deep_sleep_active
        ≠ st.deep_sleep_active ↔
      (mac_stats_handle st node ind_msg now_handle now_check false).2 ≠ []) := by
  simp only [mac_stats_handle_eq, check_eq]
  have hds := tracked_deep_sleep_active st ind_msg now_handle
  by_cases ha : entry_cond (tracked st ind_msg now_handle) now_check
  · have hd : st.deep_sleep_active = false := by rw [← hds]; exact ha.2.2.2
    simp [ha, toggle_transmit_chain, with_outcome, hd]
  · by_cases hb : exit_cond (tracked st ind_msg now_handle)
    · have hd : st.deep_sleep_active = true := by rw [← hds]; exact hb.2
      simp [ha, hb, toggle_transmit_chain, with_outcome, hd]
    · simp [ha, hb, hds]

/-! ## Steady states and the exit branch in reachable states -/

/-- In a deep-sleep state that satisfies the invariant, a call takes neither
branch, whatever the indication and the clock. -/
theorem no_transition_in_deep_sleep (st : energy_save_state_t) (c : call)
    (h : reach_inv st) (hd : st.deep_sleep_active = true) :
    handle st c = (tracked st c.ind_msg c.now_handle, []) := by
  simp only [handle, mac_stats_handle_eq]
  apply check_none
  · rintro ⟨_, _, _, hf⟩
    rw [tracked_deep_sleep_active, hd] at hf
    exact Bool.noConfusion hf
  · rintro ⟨h0, _⟩
    rw [tracked_start_ne_zero _ _ _ (h.2.1 hd)] at h0
    exact h.2.1 hd h0

/-- From a state that satisfies the invariant, no call takes the exit
branch. -/
theorem no_exit_of_reach_inv (st : energy_save_state_t) (c : call)
    (h : reach_inv st) : took_exit (handle st c).2 = false := by
  by_cases hd : st.deep_sleep_active = true
  · rw [no_transition_in_deep_sleep st c h hd]
    rfl
  · rcases handle_cases st c with ⟨_, he⟩ | ⟨_, hb, _⟩ | ⟨_, _, he⟩
    · rw [he, took_exit_toggle]
    · exact absurd (by rw [← tracked_deep_sleep_active st c.ind_msg c.now_handle]; exact hb.2) hd
    · rw [he]
      rfl

/-- A run of deliveries from a deep-sleep state that satisfies the
invariant sends no command and stays in deep sleep. -/
theorem run_in_deep_sleep (cs : List call) (st : energy_save_state_t)
    (h : reach_inv st) (hd : st.deep_sleep_active = true) :
    (∀ x ∈ run_calls st cs, x = []) ∧
    (run_state st cs).deep_sleep_active = true ∧
    (run_state st cs).tx_active = false ∧
    (run_state st cs).energy_save_cycles = st.energy_save_cycles := by
  induction cs generalizing st with
  | nil =>
    refine ⟨fun x hx => absurd hx (List.not_mem_nil x), hd, ?_, rfl⟩
    show st.tx_active = false
    rw [h.1, hd]
    rfl
  | cons c cs ih =>
    have hc := no_transition_in_deep_sleep st c h hd
    have hinv : reach_inv (handle st c).1 := reach_inv_handle st c h
    have hd2 : (handle st c).1.deep_sleep_active = true := by
      rw [hc]
      simp only [tracked_deep_sleep_active, hd]
    have hcy : (handle st c).1.energy_save_cycles = st.energy_save_cycles := by
      rw [hc]
      simp only [tracked_energy_save_cycles]
    obtain ⟨i1, i2, i3, i4⟩ := ih (handle st c).1 hinv hd2
    refine ⟨?_, ?_, ?_, ?_⟩
    · intro x hx
      rw [run_calls_cons, List.mem_cons] at hx
      rcases hx with hx | hx
      · rw [hx, hc]
      · exact i1 x hx
    · rw [run_state_cons]; exact i2
    · rw [run_state_cons]; exact i3
    · rw [run_state_cons, i4, hcy]

/-- C13. Steady states, evaluated on the ACTIVE case: after one idle
indication at 1.0 s the state is ACTIVE; the indication with 120 bytes
scheduled and no retransmission is then repeated at 1.2 s, 1.4 s and
1.6 s. The first two repetitions take no transition, and the third, still
handled in the ACTIVE state, takes the ACTIVE to DEEP_SLEEP transition:
tx_active and deep_sleep_active change, energy_save_cycles goes from 0 to 1
and a disable command is sent. -/
theorem C13_active_with_traffic_enters_deep_sleep :
    (∃ ue ∈ traffic_ind.ue_stats, ue.dl_aggr_tbs > 0) ∧
    (∀ ue ∈ traffic_ind.ue_stats, ue.dl_harq_round = 0) ∧
    run_calls energy_state
      [at_time idle_ind 1000000, at_time traffic_ind 1200000,
       at_time traffic_ind 1400000] = [[], [], []] ∧
    run_state energy_state
      [at_time idle_ind 1000000, at_time traffic_ind 1200000,
       at_time traffic_ind 1400000] =
      { tx_active := true, last_pdsch_time := 1400000,
        no_pdsch_start_time := 1000000, harq_failure_count := 0,
        deep_sleep_active := false, energy_save_cycles := 0 } ∧
    handle
      (run_state energy_state
        [at_time idle_ind 1000000, at_time traffic_ind 1200000,
         at_time traffic_ind 1400000])
      (at_time traffic_ind 1600000) =
      ({ tx_active := false, last_pdsch_time := 1600000,
         no_pdsch_start_time := 1000000, harq_failure_count := 0,
         deep_sleep_active := true, energy_save_cycles := 1 },
       toggle_transmit_chain node1 false true) := by
  decide

/-- C16. Implicit: a call of mac_stats_handle never changes a
no_pdsch_start_time that is non-zero; and in every state reached from the
initial energy_state by any sequence of calls, a further call never takes
the DEEP_SLEEP to ACTIVE branch (no enable command), and
energy_save_cycles is at most 1. -/
theorem C16_timer_never_cleared_and_no_exit (cs : List call) (c : call) :
    (∀ st : energy_save_state_t, st.no_pdsch_start_time ≠ 0 →
      (handle st c).1.no_pdsch_start_time = st.no_pdsch_start_time) ∧
    took_exit (handle (run_state energy_state cs) c).2 = false ∧
    (run_state energy_state cs).energy_save_cycles ≤ 1 := by
  have hinv := reach_inv_run cs energy_state reach_inv_init
  refine ⟨fun st h => handle_start_of_ne_zero st c h,
    no_exit_of_reach_inv _ c hinv, ?_⟩
  rw [hinv.2.2]
  split_ifs <;> omega

/-- C16 applied to the deep-sleep state of the scenario and the indication
with 120 bytes scheduled at 501 ms. -/
theorem C16_timer_never_cleared_and_no_exit_witness :
    (asleep_since 1000000).no_pdsch_start_time ≠ 0 ∧
    (handle (asleep_since 1000000)
      (at_time traffic_ind 1501000)).1.no_pdsch_start_time =
      (asleep_since 1000000).no_pdsch_start_time ∧
    took_exit (handle (run_state energy_state scenario_idle)
      (at_time traffic_ind 1501000)).2 = false ∧
    (run_state energy_state scenario_idle).energy_save_cycles ≤ 1 :=
  ⟨by decide,
   (C16_timer_never_cleared_and_no_exit scenario_idle
      (at_time traffic_ind 1501000)).1 (asleep_since 1000000) (by decide),
   (C16_timer_never_cleared_and_no_exit scenario_idle
      (at_time traffic_ind 1501000)).2⟩

/-! ## Several nodes, connection and disconnection -/

/-- The state after a call does not depend on the node, and the commands
depend on it only through their addressee. -/
theorem handle_deliver_from (st : energy_save_state_t) (b : e2_node_t) (c : call) :
    (handle st (deliver_from b c)).1 = (handle st c).1 ∧
    (handle st (deliver_from b c)).2 = (handle st c).2.map (readdress b) := by
  simp only [handle, mac_stats_handle_eq, check_eq, deliver_from]
  split_ifs <;> simp [toggle_transmit_chain, readdress]

/-- C14. Shared state (amended): the code keeps one energy_state for all
nodes. The state after mac_stats_handle is the same whichever node
delivered the indication, the node only appears as the addressee of the
command, and the state after any sequence of deliveries is the same when
all of them are attributed to a single node b; so an indication delivered
by A updates the very state that governs B. -/
theorem C14_single_shared_state (st : energy_save_state_t) (a b : e2_node_t)
    (ind_msg : mac_ind_msg_t) (now_handle now_check : Nat) (has_value : Bool)
    (cs : List call) :
    (mac_stats_handle st a ind_msg now_handle now_check has_value).1 =
      (mac_stats_handle st b ind_msg now_handle now_check has_value).1 ∧
    (mac_stats_handle st a ind_msg now_handle now_check has_value).2.map
        (readdress b) =
      (mac_stats_handle st b ind_msg now_handle now_check has_value).2 ∧
    run_state st (cs.map (deliver_from b)) = run_state st cs := by
  refine ⟨?_, ?_, ?_⟩
  · simp only [mac_stats_handle_eq, check_eq]
    split_ifs <;> rfl
  · simp only [mac_stats_handle_eq, check_eq]
    split_ifs <;> simp [toggle_transmit_chain, readdress]
  · induction cs generalizing st with
    | nil => rfl
    | cons c cs ih =>
      simp only [List.map_cons, run_state_cons, (handle_deliver_from st b c).1]
      exact ih _

/-- C14, as stated, fails for nodes 1 and 2: after an idle indication from
node 2 at 1.0 s, an indication from node 1 with a retransmission changes
the state that governs node 2; and the idle indication from node 2 at
1.6 s, which sends a disable command to node 2 when node 1 delivers nothing
in between, sends no command when node 1 delivered that indication at
1.3 s. -/
theorem C14_other_node_changes_outcome :
    node1 ≠ node2 ∧
    run_state energy_state [from_node node2 idle_ind 1000000] =
      idle_since 1000000 ∧
    (handle (idle_since 1000000) (from_node node1 harq_ind 1300000)).1 ≠
      idle_since 1000000 ∧
    (handle (run_state energy_state [from_node node2 idle_ind 1000000])
      (from_node node2 idle_ind 1600000)).2 =
      toggle_transmit_chain node2 false true ∧
    (handle
      (run_state energy_state
        [from_node node2 idle_ind 1000000, from_node node1 harq_ind 1300000])
      (from_node node2 idle_ind 1600000)).2 = [] := by
  decide

/-- C15. Lifecycle (amended): e2_node_disconn_handle and
e2_node_conn_handle leave energy_state as it is, whatever the node and the
outcome of the subscription; so the first indication after a disconnect
and a following connect is handled exactly as it would be in the state
left before the disconnect. -/
theorem C15_state_kept_across_reconnect (st : energy_save_state_t)
    (node : e2_node_t) (has_value : Bool) (c : call) :
    e2_node_disconn_handle st node = st ∧
    (e2_node_conn_handle st node has_value).1 = st ∧
    handle (e2_node_conn_handle (e2_node_disconn_handle st node) node has_value).1 c =
      handle st c :=
  ⟨rfl, rfl, rfl⟩

/-- C15, as stated, fails: node 1 delivers one idle indication at 1.0 s,
disconnects and connects again; the state is then not the initial one, and
the first indication afterwards, idle at 2.0 s, takes the ACTIVE to
DEEP_SLEEP transition at once (the timer of 1.0 s is still running), where
the initial state would start the timer and send nothing. -/
theorem C15_timer_survives_reconnect :
    (e2_node_conn_handle
      (e2_node_disconn_handle
        (run_state energy_state [at_time idle_ind 1000000]) node1)
      node1 true).1 = idle_since 1000000 ∧
    idle_since 1000000 ≠ energy_state ∧
    handle
      (e2_node_conn_handle
        (e2_node_disconn_handle
          (run_state energy_state [at_time idle_ind 1000000]) node1)
        node1 true).1
      (at_time idle_ind 2000000) =
      (asleep_since 1000000, toggle_transmit_chain node1 false true) ∧
    handle energy_state (at_time idle_ind 2000000) = (idle_since 2000000, []) := by
  decide

end EnergySave
